import Mathlib

/-!
Verification of the market-server repository: a shallow embedding of the
auth routes, the product catalog routes, and the cart model, with theorems
settling the specification claims.

Conventions of the embedding:
- MongoDB ObjectIds are `Nat`; documents are Lean structures; collections
  are `List`s threaded explicitly through each handler.
- JavaScript strings are `String`; absent body fields are the empty string
  (both are falsy in the source's truthiness tests).
- Numeric amounts (prices) are `ℚ`.
- The filesystem of uploaded images is a `List String` of disk paths;
  multer stages the uploaded file before the handler body runs.
-/

/-- Store profile carried by a seller account (only its name is ever
inspected by the routes). -/
structure StoreInfo where
  name : String
deriving DecidableEq, Repr

/-- A user document. Modelled from the spec: the User model file is not
under src/; its fields are those the routes read (id, email, hashed
password, name, role, optional store profile). -/
structure User where
  id : Nat
  email : String
  passwordHash : String
  name : String
  role : String
  storeInfo : Option StoreInfo
deriving DecidableEq, Repr

/-- Modelled from the spec: the User model stores the password as a
one-way hash. An injective stand-in for the hash function; only equality
of hashes is ever observed. -/
def hashPassword (p : String) : String := "hashed:" ++ p

/-- comparePassword from the User model: hash the supplied password and
compare with the stored hash. -/
def comparePassword (pw : String) (u : User) : Bool :=
  hashPassword pw == u.passwordHash

/-- Modelled from the spec: email identity is unique and case-normalized
by the User model (absent from src/), so stored emails are lowercase and
email queries pass through the same normalization (toLowerCase, applied
character-wise). -/
def normalizeEmail (e : String) : String := ⟨e.data.map Char.toLower⟩

/-- User.findOne on the email field, through the model's normalization. -/
def findUserByEmail (db : List User) (e : String) : Option User :=
  db.find? (fun u => u.email == normalizeEmail e)

/-- Characters allowed around the at-sign by the registration email regex:
anything that is not whitespace (the character class also excludes the
at-sign, which the split below already accounts for). -/
def noWs (l : List Char) : Bool := l.all (fun c => !c.isWhitespace)

/-- The domain part must decompose as b.c with b and c nonempty: some dot
lies strictly inside the character list. -/
def hasInnerDot (l : List Char) : Bool :=
  ((l.drop 1).dropLast).contains '.'

/-- Split a character list at the first occurrence of a character, when
there is one. -/
def breakAt (c : Char) : List Char → Option (List Char × List Char)
  | [] => none
  | x :: xs =>
    if x = c then some ([], xs)
    else
      match breakAt c xs with
      | some (a, b) => some (x :: a, b)
      | none => none

/-- The registration email regex: exactly one at-sign, a nonempty local
part, a domain containing a dot with nonempty pieces on both sides, no
whitespace anywhere. -/
def emailFormatOk (s : String) : Bool :=
  match breakAt '@' s.data with
  | none => false
  | some (a, d) =>
    !a.isEmpty && noWs a && noWs d && !(d.contains '@') && hasInnerDot d

/-- Request body of POST /auth/register. -/
structure RegisterReq where
  email : String
  password : String
  name : String
  role : String
  storeInfo : Option StoreInfo
deriving DecidableEq, Repr

/-- Outcome of a registration attempt: HTTP status, error message (empty
on success), and the user collection afterwards. -/
structure RegisterResult where
  status : Nat
  message : String
  db : List User
deriving DecidableEq, Repr

/-- Store information is missing when the field is absent or has no name. -/
def storeInfoMissing (o : Option StoreInfo) : Bool :=
  match o with
  | none => true
  | some s => s.name == ""

/-- POST /auth/register: field presence, email format, password length,
duplicate email, role validity, seller store info, then persist. -/
def register (db : List User) (r : RegisterReq) (newId : Nat) : RegisterResult :=
  if r.email = "" ∨ r.password = "" ∨ r.name = "" then
    ⟨400, "Please provide all required fields", db⟩
  else if emailFormatOk r.email = false then
    ⟨400, "Please provide a valid email address", db⟩
  else if r.password.length < 6 then
    ⟨400, "Password must be at least 6 characters long", db⟩
  else if (findUserByEmail db r.email).isSome then
    ⟨400, "User already exists", db⟩
  else if ¬ (r.role = "user" ∨ r.role = "seller") then
    ⟨400, "Invalid role specified", db⟩
  else if r.role = "seller" ∧ storeInfoMissing r.storeInfo then
    ⟨400, "Store information is required for sellers", db⟩
  else
    ⟨201, "",
      db ++ [{ id := newId, email := normalizeEmail r.email,
               passwordHash := hashPassword r.password, name := r.name,
               role := r.role,
               storeInfo := if r.role = "seller" then r.storeInfo else none }]⟩

/-- Outcome of a login attempt. -/
inductive LoginRes where
  | err (status : Nat) (message : String)
  | ok (userId : Nat) (role : String)
deriving DecidableEq, Repr

/-- POST /auth/login: missing credentials, then lookup by lowercased
email, then password comparison; both authentication failures answer 400
with the same undifferentiated message. -/
def login (db : List User) (email pw : String) : LoginRes :=
  if email = "" ∨ pw = "" then
    .err 400 "Please provide email and password"
  else
    match findUserByEmail db email with
    | none => .err 400 "Invalid credentials"
    | some u =>
      if comparePassword pw u then .ok u.id u.role
      else .err 400 "Invalid credentials"

/-- Denormalized store snapshot stored on a product (id and display name),
captured at creation time. -/
structure Store where
  id : Nat
  name : String
deriving DecidableEq, Repr

/-- A product document. Modelled from the spec where the model file is
absent from src/: fields are exactly those the routes read and write. -/
structure Product where
  id : Nat
  name : String
  description : String
  price : ℚ
  image : Option String
  seller : Nat
  store : Store
  createdAt : Nat
deriving DecidableEq, Repr

/-- JavaScript toString of the store snapshot subdocument: the rendered
object. Only (in)equality of serializations is observed by the code; the
essential feature is that an object rendering opens with a brace, so it
never coincides with an ObjectId rendering. -/
def storeChars (s : Store) : List Char :=
  ['{'] ++ " id: ".data ++ (Nat.repr s.id).data ++
    ", name: ".data ++ s.name.data ++ [' ', '}']

/-- JavaScript toString of an ObjectId: an injective rendering of the id
(the real serialization is the hex digit string; only equality of
renderings is observed). -/
def idChars (n : Nat) : List Char :=
  ['O'] ++ "bjectId(".data ++ (Nat.repr n).data ++ [')']

/-- An uploaded file received by multer, identified by its generated
unique filename. -/
structure UploadedFile where
  filename : String
deriving DecidableEq, Repr

/-- Disk path where multer stores the upload. -/
def filePath (f : UploadedFile) : String := "uploads/" ++ f.filename

/-- Public URL recorded on the product document. -/
def imageUrl (f : UploadedFile) : String := "/uploads/" ++ f.filename

/-- Multer runs before the handler body: when a file is attached to the
request it is already on disk by the time the handler executes. -/
def stageUpload (fs : List String) (file : Option UploadedFile) : List String :=
  match file with
  | none => fs
  | some f => fs ++ [filePath f]

/-- Disk path of a stored image reference: the recorded URL with the
leading slash stripped (the replace of the api prefix is a no-op on the
references this code writes). -/
def diskPathOfImage (img : String) : String := ⟨img.data.drop 1⟩

/-- Multipart body fields of a product write. -/
structure CatalogBody where
  name : String
  description : String
  price : ℚ
deriving DecidableEq, Repr

/-- Outcome of a catalog handler: HTTP status, the product collection and
the uploads directory afterwards. -/
structure CatalogResult where
  status : Nat
  db : List Product
  fs : List String
deriving DecidableEq, Repr

/-- Sort key of the product listings: newest (largest createdAt) first. -/
def newestFirst (a b : Product) : Prop := b.createdAt ≤ a.createdAt

instance : DecidableRel newestFirst := fun a b => Nat.decLe b.createdAt a.createdAt

instance : IsTotal Product newestFirst := ⟨fun a b => Nat.le_total b.createdAt a.createdAt⟩

instance : IsTrans Product newestFirst := ⟨fun _ _ _ h1 h2 => Nat.le_trans h2 h1⟩

/-- The sort on createdAt descending applied by the listing queries. -/
def sortNewestFirst (l : List Product) : List Product :=
  List.insertionSort newestFirst l

/-- The fields written by the update handlers; image only when a new file
was uploaded. -/
structure UpdateData where
  name : String
  description : String
  price : ℚ
  image : Option String
deriving DecidableEq, Repr

/-- findByIdAndUpdate with the update handlers' updateData: sets name,
description, price, and image when present; every other field keeps its
stored value. -/
def applyUpdate (p : Product) (d : UpdateData) : Product :=
  { p with
    name := d.name, description := d.description, price := d.price,
    image := match d.image with | some i => some i | none => p.image }

namespace Catalog

/-- GET /products: every product, newest first (the populate of the seller
display name does not alter the documents listed). -/
def listAll (db : List Product) : List Product :=
  sortNewestFirst db

/-- GET /products/my-store: the query filters on the store snapshot id
field, then sorts newest first. -/
def myStore (db : List Product) (u : User) : List Product :=
  sortNewestFirst (db.filter (fun p => p.store.id == u.id))

/-- POST /products (src/routes/products.js): no role check; requires an
uploaded image, builds the product with the caller as seller and a store
snapshot, saves it; if the save fails the staged upload is unlinked and a
500 returned. -/
def create (db : List Product) (fs : List String) (u : User)
    (body : CatalogBody) (file : Option UploadedFile) (saveOk : Bool)
    (newId now : Nat) : CatalogResult :=
  let fs1 := stageUpload fs file
  match file with
  | none => ⟨400, db, fs1⟩
  | some f =>
    let p : Product :=
      { id := newId, name := body.name, description := body.description,
        price := body.price, image := some (imageUrl f), seller := u.id,
        store := ⟨u.id, if u.name = "" then "Unknown Seller" else u.name⟩,
        createdAt := now }
    if saveOk then ⟨201, db ++ [p], fs1⟩
    else ⟨500, db, fs1.erase (filePath f)⟩

/-- PUT /products/:id (src/routes/products.js): 404 if absent; 403 when
the stringified store snapshot differs from the stringified caller id
(the ownership comparison this file performs); otherwise writes name,
description, price, and, when a file was uploaded, unlinks the old image
and records the new reference. -/
def update (db : List Product) (fs : List String) (u : User) (pid : Nat)
    (body : CatalogBody) (file : Option UploadedFile) : CatalogResult :=
  let fs1 := stageUpload fs file
  match db.find? (fun p => p.id == pid) with
  | none => ⟨404, db, fs1⟩
  | some p =>
    if storeChars p.store ≠ idChars u.id then ⟨403, db, fs1⟩
    else
      match file with
      | none =>
        let d : UpdateData := ⟨body.name, body.description, body.price, none⟩
        ⟨200, db.map (fun q => if q.id == pid then applyUpdate q d else q), fs1⟩
      | some f =>
        let fs2 := match p.image with
          | some img => fs1.erase (diskPathOfImage img)
          | none => fs1
        let d : UpdateData := ⟨body.name, body.description, body.price, some (imageUrl f)⟩
        ⟨200, db.map (fun q => if q.id == pid then applyUpdate q d else q), fs2⟩

/-- DELETE /products/:id (src/routes/products.js): 404 if absent; the same
store-snapshot ownership comparison as update; otherwise unlinks the image
and removes the document. -/
def remove (db : List Product) (fs : List String) (u : User) (pid : Nat) :
    CatalogResult :=
  match db.find? (fun p => p.id == pid) with
  | none => ⟨404, db, fs⟩
  | some p =>
    if storeChars p.store ≠ idChars u.id then ⟨403, db, fs⟩
    else
      let fs2 := match p.image with
        | some img => fs.erase (diskPathOfImage img)
        | none => fs
      ⟨200, db.filter (fun q => !(q.id == pid)), fs2⟩

end Catalog

namespace CatalogV1

/-- POST /products in the part_001 route variants: identical to the
canonical create except that a caller whose role is not seller is rejected
with 403 before the image requirement and the save. -/
def create (db : List Product) (fs : List String) (u : User)
    (body : CatalogBody) (file : Option UploadedFile) (saveOk : Bool)
    (newId now : Nat) : CatalogResult :=
  let fs1 := stageUpload fs file
  if u.role ≠ "seller" then ⟨403, db, fs1⟩
  else
    match file with
    | none => ⟨400, db, fs1⟩
    | some f =>
      let p : Product :=
        { id := newId, name := body.name, description := body.description,
          price := body.price, image := some (imageUrl f), seller := u.id,
          store := ⟨u.id, if u.name = "" then "Unknown Seller" else u.name⟩,
          createdAt := now }
      if saveOk then ⟨201, db ++ [p], fs1⟩
      else ⟨500, db, fs1.erase (filePath f)⟩

end CatalogV1

/-- A cart line item: a product reference and a quantity
(cartItemSchema in the Cart model, both fields required, quantity min 1). -/
structure CartItem where
  product : Nat
  quantity : Int
deriving DecidableEq, Repr

/-- A cart document: one per user, an ordered collection of line items. -/
structure Cart where
  user : Nat
  items : List CartItem
deriving DecidableEq, Repr

/-- A line item whose product reference has been populated with the
current product document. -/
structure PopulatedItem where
  product : Product
  quantity : Int
deriving DecidableEq, Repr

/-- cartSchema.methods.getTotal: reduce over the populated items, adding
price times quantity to an accumulator starting at 0. -/
def getTotal (items : List PopulatedItem) : ℚ :=
  items.foldl (fun total it => total + it.product.price * (it.quantity : ℚ)) 0

/-- Modelled from the spec: the cart route (absent from src/) populates
each line item's product reference against the catalog before the total is
computed; a dangling reference leaves the cart unpopulatable. -/
def populateItems (db : List Product) (items : List CartItem) :
    Option (List PopulatedItem) :=
  match items with
  | [] => some []
  | it :: rest =>
    match db.find? (fun p => p.id == it.product), populateItems db rest with
    | some p, some ps => some (⟨p, it.quantity⟩ :: ps)
    | _, _ => none

/-- The cart total as served: populate against the current catalog, then
getTotal. -/
def cartTotal (db : List Product) (c : Cart) : Option ℚ :=
  (populateItems db c.items).map getTotal

/-- Current stored price of a referenced product (0 when the reference
dangles; populateItems rules that case out). -/
def currentPrice (db : List Product) (pid : Nat) : ℚ :=
  match db.find? (fun p => p.id == pid) with
  | some p => p.price
  | none => 0

/-- The Cart model's schema bound on a line item: quantity at least 1. -/
def cartItemValid (it : CartItem) : Bool :=
  decide (1 ≤ it.quantity)

/-- Every line item of the cart satisfies the schema bound. -/
def cartValid (c : Cart) : Bool :=
  c.items.all cartItemValid

/-- Modelled from the spec: addOrUpdateItem of the cart route (absent from
src/) rejects a quantity below the schema minimum of 1; if the product is
already in the cart it replaces that quantity, otherwise it appends a new
line item. -/
def addOrUpdateItem (c : Cart) (pid : Nat) (q : Int) :
    Except (Nat × String) Cart :=
  if q < 1 then .error (400, "Quantity must be at least 1")
  else if c.items.any (fun it => it.product == pid) then
    .ok { c with
          items := c.items.map (fun it =>
            if it.product == pid then { it with quantity := q } else it) }
  else .ok { c with items := c.items ++ [⟨pid, q⟩] }

/-- Modelled from the spec: removeItem of the cart route (absent from
src/) drops the line item for the product; removing an absent item is a
no-op. -/
def removeItem (c : Cart) (pid : Nat) : Cart :=
  { c with items := c.items.filter (fun it => !(it.product == pid)) }

/-- The cart operations reachable through the API. -/
inductive CartOp where
  | add (pid : Nat) (q : Int)
  | remove (pid : Nat)
deriving DecidableEq, Repr

/-- One API step on a cart; a rejected add leaves the stored cart as it
was. -/
def applyCartOp (c : Cart) : CartOp → Cart
  | .add pid q =>
    match addOrUpdateItem c pid q with
    | .ok c2 => c2
    | .error _ => c
  | .remove pid => removeItem c pid

/-- A lazily created cart starts empty. -/
def emptyCart (u : Nat) : Cart := ⟨u, []⟩

/-- Run a sequence of cart operations from a starting cart. -/
def runCartOps (c : Cart) (ops : List CartOp) : Cart :=
  ops.foldl applyCartOp c

/-! ## Shared lemmas -/

/-- The rendering of the store subdocument opens with a brace while the
rendering of an ObjectId does not, so the two serializations never
coincide: the update and delete ownership comparison in
src/routes/products.js can never succeed. -/
theorem storeChars_ne_idChars (s : Store) (n : Nat) :
    storeChars s ≠ idChars n := by
  intro h
  simp [storeChars, idChars] at h

/-- Replacing the updated fields of selected products changes no product's
id or seller. -/
theorem map_applyUpdate_id_seller (db : List Product) (pid : Nat) (d : UpdateData) :
    (db.map (fun q => if q.id == pid then applyUpdate q d else q)).map
        (fun p => (p.id, p.seller)) =
      db.map (fun p => (p.id, p.seller)) := by
  induction db with
  | nil => rfl
  | cons q qs ih =>
    simp only [List.map_cons, ih]
    by_cases h : (q.id == pid) = true
    · simp [h, applyUpdate]
    · simp [h]

/-! ## C1 -/

/-- Seller account used as the failing input of C1: it owns c1Product. -/
def c1Owner : User :=
  ⟨7, "sam@shop.co", hashPassword "secret1", "Sam", "seller", some ⟨"SamStore"⟩⟩

/-- Product owned by c1Owner: its seller reference and its store snapshot
id both equal 7. -/
def c1Product : Product :=
  ⟨1, "Mug", "A mug", 10, some "/uploads/m.png", 7, ⟨7, "Sam"⟩, 5⟩

/-- C1: the claim states the update and delete ownership comparison is
made against the seller reference, so the owning seller proceeds. The
code of src/routes/products.js compares the stringified store snapshot
subdocument with the caller id: evaluated at the owner of the product
(seller = caller = 7), both the update and the delete reject with 403 and
leave the record untouched, contradicting the claim. -/
theorem c1_store_snapshot_check_rejects_owner :
    c1Product.seller = c1Owner.id ∧
    (Catalog.update [c1Product] [] c1Owner 1 ⟨"Mug2", "Bigger", 12⟩ none).status = 403 ∧
    (Catalog.update [c1Product] [] c1Owner 1 ⟨"Mug2", "Bigger", 12⟩ none).db = [c1Product] ∧
    (Catalog.remove [c1Product] [] c1Owner 1).status = 403 ∧
    (Catalog.remove [c1Product] [] c1Owner 1).db = [c1Product] := by
  decide

/-! ## C2 -/

/-- Authenticated non-seller account used for C2. -/
def c2Buyer : User :=
  ⟨3, "bea@shop.co", hashPassword "secret2", "Bea", "user", none⟩

/-- Image file attached to the C2 create request. -/
def c2File : UploadedFile := ⟨"42-7.png"⟩

/-- C2 counterexample: the claim states a create by an authenticated user
whose role is not seller is rejected with 403 before persisting anything.
The create handler of src/routes/products.js performs no role check:
evaluated at a caller with role user, it answers 201 and persists the
product with the caller as seller. -/
theorem c2_canonical_create_skips_role_check :
    c2Buyer.role ≠ "seller" ∧
    (Catalog.create [] [] c2Buyer ⟨"Hat", "A hat", 5⟩ (some c2File) true 10 1).status = 201 ∧
    (Catalog.create [] [] c2Buyer ⟨"Hat", "A hat", 5⟩ (some c2File) true 10 1).db =
      [⟨10, "Hat", "A hat", 5, some "/uploads/42-7.png", 3, ⟨3, "Bea"⟩, 1⟩] := by
  decide

/-- C2 amended: in the part_001 product route variants the create handler
rejects a caller whose role is not seller with 403 before persisting
anything, and a product is only ever persisted with the caller as seller
when the caller's role is seller; the canonical src/routes/products.js
create performs no role check. -/
theorem c2_variant_create_requires_seller_role
    (db : List Product) (fs : List String) (u : User) (body : CatalogBody)
    (file : Option UploadedFile) (saveOk : Bool) (newId now : Nat) :
    (u.role ≠ "seller" →
      (CatalogV1.create db fs u body file saveOk newId now).status = 403 ∧
      (CatalogV1.create db fs u body file saveOk newId now).db = db) ∧
    (∀ p, p ∈ (CatalogV1.create db fs u body file saveOk newId now).db →
      p ∉ db → u.role = "seller" ∧ p.seller = u.id) := by
  by_cases hr : u.role = "seller"
  · refine ⟨fun h => absurd hr h, ?_⟩
    intro p hp hnot
    refine ⟨hr, ?_⟩
    cases file with
    | none => simp [CatalogV1.create, hr] at hp; exact absurd hp hnot
    | some f =>
      cases saveOk with
      | false => simp [CatalogV1.create, hr] at hp; exact absurd hp hnot
      | true =>
        simp [CatalogV1.create, hr] at hp
        rcases hp with hp | hp
        · exact absurd hp hnot
        · rw [hp]
  · refine ⟨fun _ => by simp [CatalogV1.create, hr], ?_⟩
    intro p hp hnot
    simp [CatalogV1.create, hr] at hp
    exact absurd hp hnot

/-- C2 amended witness: a concrete non-seller caller is rejected by the
variant create with 403 and nothing persisted. -/
theorem c2_variant_create_requires_seller_role_witness :
    (CatalogV1.create [] [] c2Buyer ⟨"Hat", "A hat", 5⟩ (some c2File) true 10 1).status = 403 ∧
    (CatalogV1.create [] [] c2Buyer ⟨"Hat", "A hat", 5⟩ (some c2File) true 10 1).db = [] :=
  (c2_variant_create_requires_seller_role [] [] c2Buyer ⟨"Hat", "A hat", 5⟩
    (some c2File) true 10 1).1 (by decide)

/-! ## C3 -/

/-- C3: when an image was staged but the database save fails, the create
handler of src/routes/products.js unlinks the staged file before
answering 500: the uploads directory is exactly as it was before the
request and no product was persisted. -/
theorem c3_create_rolls_back_image_on_save_failure
    (db : List Product) (fs : List String) (u : User) (body : CatalogBody)
    (f : UploadedFile) (newId now : Nat) :
    filePath f ∉ fs →
    (Catalog.create db fs u body (some f) false newId now).status = 500 ∧
    (Catalog.create db fs u body (some f) false newId now).fs = fs ∧
    (Catalog.create db fs u body (some f) false newId now).db = db := by
  intro hnew
  refine ⟨rfl, ?_, rfl⟩
  show ((stageUpload fs (some f)).erase (filePath f)) = fs
  rw [stageUpload, List.erase_append_right _ hnew, List.erase_cons_head,
    List.append_nil]

/-- C3 witness: a concrete failing create leaves the uploads directory
and the catalog unchanged. -/
theorem c3_create_rolls_back_image_on_save_failure_witness :
    (Catalog.create [] ["uploads/old.png"] c1Owner ⟨"Hat", "A hat", 5⟩
        (some ⟨"9-9.png"⟩) false 11 2).status = 500 ∧
    (Catalog.create [] ["uploads/old.png"] c1Owner ⟨"Hat", "A hat", 5⟩
        (some ⟨"9-9.png"⟩) false 11 2).fs = ["uploads/old.png"] ∧
    (Catalog.create [] ["uploads/old.png"] c1Owner ⟨"Hat", "A hat", 5⟩
        (some ⟨"9-9.png"⟩) false 11 2).db = [] :=
  c3_create_rolls_back_image_on_save_failure [] ["uploads/old.png"] c1Owner
    ⟨"Hat", "A hat", 5⟩ ⟨"9-9.png"⟩ 11 2 (by decide)

/-! ## C7 -/

/-- C7: the update handler of src/routes/products.js writes only name,
description, price and possibly image: whatever the outcome (404, 403 or
200), every product in the resulting collection keeps its id and its
owning-seller reference; in particular a successful update never changes
the updated product's seller. -/
theorem c7_update_never_writes_seller
    (db : List Product) (fs : List String) (u : User) (pid : Nat)
    (body : CatalogBody) (file : Option UploadedFile) :
    ((Catalog.update db fs u pid body file).db).map (fun p => (p.id, p.seller)) =
      db.map (fun p => (p.id, p.seller)) := by
  unfold Catalog.update
  cases hf : db.find? (fun p => p.id == pid) with
  | none => simp [hf]
  | some p =>
    simp only [hf]
    by_cases hown : storeChars p.store ≠ idChars u.id
    · simp [hown]
    · cases file with
      | none =>
        simp [hown]
        intro a _
        split <;> simp [applyUpdate]
      | some f =>
        simp [hown]
        intro a _
        split <;> simp [applyUpdate]

/-! ## C8 -/

/-- C8: a product update or delete attempt through src/routes/products.js
by an authenticated user who is not the product's owner answers 403 and
leaves the stored collection unchanged: the very same record, with all its
fields and its image reference, is still present afterwards. -/
theorem c8_nonowner_mutation_rejected_and_record_unchanged
    (db : List Product) (fs : List String) (u : User) (p : Product)
    (body : CatalogBody) (file : Option UploadedFile) :
    db.find? (fun q => q.id == p.id) = some p →
    u.id ≠ p.seller →
    (Catalog.update db fs u p.id body file).status = 403 ∧
    (Catalog.update db fs u p.id body file).db = db ∧
    (Catalog.remove db fs u p.id).status = 403 ∧
    (Catalog.remove db fs u p.id).db = db ∧
    p ∈ (Catalog.update db fs u p.id body file).db ∧
    p ∈ (Catalog.remove db fs u p.id).db := by
  intro hfind _
  have hmem : p ∈ db := List.mem_of_find?_eq_some hfind
  have hno := storeChars_ne_idChars p.store u.id
  refine ⟨?_, ?_, ?_, ?_, ?_, ?_⟩ <;>
    simp [Catalog.update, Catalog.remove, hfind, hno, hmem]

/-- C8 witness: a concrete authenticated non-owner (id 3, while the
product's seller is 7) receives 403 from both update and delete and the
record is still there. -/
theorem c8_nonowner_mutation_rejected_and_record_unchanged_witness :
    (Catalog.update [c1Product] [] c2Buyer 1 ⟨"X", "Y", 1⟩ none).status = 403 ∧
    (Catalog.update [c1Product] [] c2Buyer 1 ⟨"X", "Y", 1⟩ none).db = [c1Product] ∧
    (Catalog.remove [c1Product] [] c2Buyer 1).status = 403 ∧
    (Catalog.remove [c1Product] [] c2Buyer 1).db = [c1Product] ∧
    c1Product ∈ (Catalog.update [c1Product] [] c2Buyer 1 ⟨"X", "Y", 1⟩ none).db ∧
    c1Product ∈ (Catalog.remove [c1Product] [] c2Buyer 1).db :=
  c8_nonowner_mutation_rejected_and_record_unchanged [c1Product] [] c2Buyer
    c1Product ⟨"X", "Y", 1⟩ none (by decide) (by decide)

/-! ## C5 -/

/-- C5: a login attempt whose email matches no account and a login attempt
whose email matches an account but whose password comparison fails produce
literally the same rejection: status 400, message Invalid credentials. -/
theorem c5_login_failures_indistinguishable
    (db : List User) (e1 p1 e2 p2 : String) (u : User) :
    e1 ≠ "" → p1 ≠ "" → e2 ≠ "" → p2 ≠ "" →
    findUserByEmail db e1 = none →
    findUserByEmail db e2 = some u →
    comparePassword p2 u = false →
    login db e1 p1 = LoginRes.err 400 "Invalid credentials" ∧
    login db e2 p2 = LoginRes.err 400 "Invalid credentials" ∧
    login db e1 p1 = login db e2 p2 := by
  intro he1 hp1 he2 hp2 hnone hsome hbad
  simp [login, he1, hp1, he2, hp2, hnone, hsome, hbad]

/-- User stored for the C5 witness (email kept lowercase, as the model
stores it). -/
def c5User : User :=
  ⟨5, "ann@shop.co", hashPassword "secret1", "Ann", "user", none⟩

/-- C5 witness: with one stored account, a login under an unknown email
and a login under the right email with the wrong password answer with the
identical rejection. -/
theorem c5_login_failures_indistinguishable_witness :
    login [c5User] "nobody@shop.co" "secret1" = LoginRes.err 400 "Invalid credentials" ∧
    login [c5User] "Ann@shop.co" "wrongpw" = LoginRes.err 400 "Invalid credentials" ∧
    login [c5User] "nobody@shop.co" "secret1" = login [c5User] "Ann@shop.co" "wrongpw" :=
  c5_login_failures_indistinguishable [c5User] "nobody@shop.co" "secret1"
    "Ann@shop.co" "wrongpw" c5User (by decide) (by decide) (by decide) (by decide)
    (by decide) (by decide) (by decide)

/-! ## C6 -/

/-- A registration that answered 201 appended exactly the new user, whose
stored email is the normalized request email. -/
theorem register_success_db (db : List User) (r : RegisterReq) (nid : Nat) :
    (register db r nid).status = 201 →
    (register db r nid).db =
      db ++ [{ id := nid, email := normalizeEmail r.email,
               passwordHash := hashPassword r.password, name := r.name,
               role := r.role,
               storeInfo := if r.role = "seller" then r.storeInfo else none }] := by
  intro h
  unfold register at h ⊢
  repeat' split at h
  all_goals simp_all
  all_goals rw [if_neg (by omega)]

/-- C6: once a registration with some email has succeeded, any further
registration whose email differs at most in letter case (and which passes
the field validations that run before the duplicate check) is rejected
with the conflict answer 400 User already exists, and the user collection
is left exactly as it was: no second account is created. -/
theorem c6_duplicate_email_registration_conflicts
    (db : List User) (r1 r2 : RegisterReq) (id1 id2 : Nat) :
    (register db r1 id1).status = 201 →
    normalizeEmail r2.email = normalizeEmail r1.email →
    r2.password ≠ "" → r2.name ≠ "" →
    emailFormatOk r2.email = true →
    6 ≤ r2.password.length →
    (register (register db r1 id1).db r2 id2).status = 400 ∧
    (register (register db r1 id1).db r2 id2).message = "User already exists" ∧
    (register (register db r1 id1).db r2 id2).db = (register db r1 id1).db := by
  intro h201 hnorm hp hn hfmt hlen
  have hdb := register_success_db db r1 id1 h201
  rw [hdb]
  have hemail2 : r2.email ≠ "" := by
    intro h0
    rw [h0] at hfmt
    exact absurd hfmt (by decide)
  have hfound : (findUserByEmail
      (db ++ [{ id := id1, email := normalizeEmail r1.email,
                passwordHash := hashPassword r1.password, name := r1.name,
                role := r1.role,
                storeInfo := if r1.role = "seller" then r1.storeInfo else none }])
      r2.email).isSome = true := by
    unfold findUserByEmail
    rw [List.find?_isSome]
    refine ⟨_, List.mem_append_right db (List.mem_singleton.mpr rfl), ?_⟩
    simp [hnorm]
  simp [register, hemail2, hp, hn, hfmt, Nat.not_lt.mpr hlen, hfound]

/-- First registration request of the C6 witness (mixed-case email). -/
def c6Req1 : RegisterReq := ⟨"Ann@Shop.Co", "secret1", "Ann", "user", none⟩

/-- Second registration request of the C6 witness: same email up to case. -/
def c6Req2 : RegisterReq := ⟨"ann@shop.co", "secret2", "Another Ann", "user", none⟩

/-- C6 witness: registering Ann at Shop.Co and then ann at shop.co makes
the second attempt conflict and leaves the single stored account alone. -/
theorem c6_duplicate_email_registration_conflicts_witness :
    (register (register [] c6Req1 1).db c6Req2 2).status = 400 ∧
    (register (register [] c6Req1 1).db c6Req2 2).message = "User already exists" ∧
    (register (register [] c6Req1 1).db c6Req2 2).db = (register [] c6Req1 1).db :=
  c6_duplicate_email_registration_conflicts [] c6Req1 c6Req2 1 2 (by decide)
    (by decide) (by decide) (by decide) (by decide) (by decide)

/-! ## C4 -/

/-- The reduce of getTotal from any accumulator is that accumulator plus
the sum of price times quantity. -/
theorem getTotal_foldl_eq_sum (l : List PopulatedItem) (a : ℚ) :
    l.foldl (fun total it => total + it.product.price * (it.quantity : ℚ)) a =
      a + (l.map (fun it => it.product.price * (it.quantity : ℚ))).sum := by
  induction l generalizing a with
  | nil => simp
  | cons x xs ih => simp [List.foldl_cons, ih, add_assoc]

/-- A populated cart's per-item amounts are the current stored prices of
the referenced products times the quantities. -/
theorem populateItems_amounts (db : List Product) (items : List CartItem)
    (ps : List PopulatedItem) :
    populateItems db items = some ps →
    ps.map (fun it => it.product.price * (it.quantity : ℚ)) =
      items.map (fun it => currentPrice db it.product * (it.quantity : ℚ)) := by
  induction items generalizing ps with
  | nil =>
    intro h
    simp [populateItems] at h
    simp [← h]
  | cons it rest ih =>
    intro h
    simp only [populateItems] at h
    cases hf : db.find? (fun p => p.id == it.product) with
    | none => rw [hf] at h; exact absurd h (by simp)
    | some p =>
      rw [hf] at h
      cases hr : populateItems db rest with
      | none => rw [hr] at h; exact absurd h (by simp)
      | some ps2 =>
        rw [hr] at h
        simp only [Option.some.injEq] at h
        subst h
        simp [List.map_cons, currentPrice, hf, ih ps2 hr]

/-- Every line item whose product reference resolves makes populateItems
succeed. -/
theorem populateItems_total (db : List Product) (items : List CartItem) :
    (∀ it ∈ items, (db.find? (fun p => p.id == it.product)).isSome = true) →
    ∃ ps, populateItems db items = some ps := by
  induction items with
  | nil => exact fun _ => ⟨[], rfl⟩
  | cons it rest ih =>
    intro h
    obtain ⟨p, hp⟩ := Option.isSome_iff_exists.mp (h it (List.mem_cons_self it rest))
    obtain ⟨ps, hps⟩ := ih (fun x hx => h x (List.mem_cons_of_mem it hx))
    exact ⟨⟨p, it.quantity⟩ :: ps, by simp [populateItems, hp, hps]⟩

/-- C4: whenever every line item's product reference resolves against the
catalog, the served cart total is exactly the sum over the line items of
the referenced product's current stored price times the quantity — a pure
function of the cart and the present catalog, so it is recomputed from
whatever price the catalog stores now — and the empty cart totals 0. -/
theorem c4_cart_total_is_sum_of_current_prices (db : List Product) (c : Cart) :
    (∀ it ∈ c.items, (db.find? (fun p => p.id == it.product)).isSome = true) →
    cartTotal db c =
      some ((c.items.map
        (fun it => currentPrice db it.product * (it.quantity : ℚ))).sum) ∧
    cartTotal db { user := c.user, items := [] } = some 0 := by
  intro h
  obtain ⟨ps, hps⟩ := populateItems_total db c.items h
  constructor
  · rw [cartTotal, hps]
    simp only [Option.map_some']
    rw [getTotal, getTotal_foldl_eq_sum, populateItems_amounts db c.items ps hps,
      zero_add]
  · simp [cartTotal, populateItems, getTotal]

/-- Catalog used by the C4 witness: two priced products. -/
def c4Db : List Product :=
  [⟨1, "Mug", "A mug", 10, some "/uploads/m.png", 7, ⟨7, "Sam"⟩, 5⟩,
   ⟨2, "Hat", "A hat", 4, some "/uploads/h.png", 7, ⟨7, "Sam"⟩, 6⟩]

/-- Cart used by the C4 witness: three mugs and two hats. -/
def c4Cart : Cart := ⟨9, [⟨1, 3⟩, ⟨2, 2⟩]⟩

/-- C4 witness: on the concrete catalog the total is the sum of current
price times quantity for each line item, and the empty cart totals 0. -/
theorem c4_cart_total_is_sum_of_current_prices_witness :
    cartTotal c4Db c4Cart =
      some ((c4Cart.items.map
        (fun it => currentPrice c4Db it.product * (it.quantity : ℚ))).sum) ∧
    cartTotal c4Db { user := c4Cart.user, items := [] } = some 0 :=
  c4_cart_total_is_sum_of_current_prices c4Db c4Cart (by decide)

/-! ## C9 -/

/-- Every product written by the API carries a store snapshot whose id is
the owning seller: create stamps both with the caller id, update rewrites
neither (and delete only removes documents), so the coincidence of
store.id and seller is an invariant of all reachable catalogs. -/
theorem catalog_writes_preserve_snapshot_invariant
    (db : List Product) (fs : List String) (u : User) (body : CatalogBody)
    (file : Option UploadedFile) (saveOk : Bool) (newId now pid : Nat) :
    (∀ p ∈ db, p.store.id = p.seller) →
    (∀ p ∈ (Catalog.create db fs u body file saveOk newId now).db,
      p.store.id = p.seller) ∧
    (∀ p ∈ (Catalog.update db fs u pid body file).db, p.store.id = p.seller) ∧
    (∀ p ∈ (Catalog.remove db fs u pid).db, p.store.id = p.seller) := by
  intro hinv
  refine ⟨?_, ?_, ?_⟩
  · intro p hp
    cases file with
    | none => exact hinv p hp
    | some f =>
      cases saveOk with
      | false => exact hinv p hp
      | true =>
        simp [Catalog.create] at hp
        rcases hp with hp | hp
        · exact hinv p hp
        · rw [hp]
  · intro p hp
    unfold Catalog.update at hp
    split at hp
    · exact hinv p hp
    · split at hp
      · exact hinv p hp
      · split at hp <;>
        · simp at hp
          obtain ⟨a, ha, hpa⟩ := hp
          rw [← hpa]
          by_cases hid : a.id = pid
          · simpa [hid, applyUpdate] using hinv a ha
          · simpa [hid] using hinv a ha
  · intro p hp
    unfold Catalog.remove at hp
    split at hp
    · exact hinv p hp
    · split at hp
      · exact hinv p hp
      · simp at hp
        exact hinv p hp.1

/-- C9: over any catalog satisfying the reachable-state invariant that the
store snapshot id coincides with the seller reference, the my-store
listing of an authenticated user holds exactly the products whose owning
seller is that user — never another seller's product — and is sorted
newest first. -/
theorem c9_my_store_lists_exactly_own_products_newest_first
    (db : List Product) (u : User) :
    (∀ p ∈ db, p.store.id = p.seller) →
    (∀ p, p ∈ Catalog.myStore db u ↔ (p ∈ db ∧ p.seller = u.id)) ∧
    List.Sorted newestFirst (Catalog.myStore db u) := by
  intro hinv
  constructor
  · intro p
    unfold Catalog.myStore sortNewestFirst
    rw [List.mem_insertionSort, List.mem_filter]
    constructor
    · rintro ⟨hpdb, hf⟩
      refine ⟨hpdb, ?_⟩
      have hs := hinv p hpdb
      simp only [beq_iff_eq] at hf
      rw [← hs, hf]
    · rintro ⟨hpdb, hs⟩
      refine ⟨hpdb, ?_⟩
      simp only [beq_iff_eq]
      rw [hinv p hpdb, hs]
  · exact List.sorted_insertionSort newestFirst _

/-- Catalog used by the C9 witness: products of two different sellers,
created out of order. -/
def c9Db : List Product :=
  [⟨1, "Mug", "A mug", 10, some "/uploads/m.png", 7, ⟨7, "Sam"⟩, 5⟩,
   ⟨2, "Hat", "A hat", 4, some "/uploads/h.png", 3, ⟨3, "Bea"⟩, 9⟩,
   ⟨3, "Pen", "A pen", 2, some "/uploads/p.png", 7, ⟨7, "Sam"⟩, 8⟩]

/-- Seller account querying the C9 witness listing. -/
def c9Seller : User :=
  ⟨7, "sam@shop.co", hashPassword "secret1", "Sam", "seller", some ⟨"SamStore"⟩⟩

/-- C9 witness: on the concrete catalog the my-store listing of seller 7
is characterized by ownership and is sorted newest first. -/
theorem c9_my_store_lists_exactly_own_products_newest_first_witness :
    (∀ p, p ∈ Catalog.myStore c9Db c9Seller ↔ (p ∈ c9Db ∧ p.seller = c9Seller.id)) ∧
    List.Sorted newestFirst (Catalog.myStore c9Db c9Seller) :=
  c9_my_store_lists_exactly_own_products_newest_first c9Db c9Seller (by decide)

/-! ## C10 -/

/-- One cart operation preserves the schema bound: a rejected add leaves
the cart as it was, a replacement or appended quantity already passed the
minimum check, and removal only drops items. -/
theorem cartValid_applyCartOp (c : Cart) (op : CartOp) :
    cartValid c = true → cartValid (applyCartOp c op) = true := by
  intro h
  cases op with
  | add pid q =>
    by_cases hq : q < 1
    · simp [applyCartOp, addOrUpdateItem, hq, h]
    · have hq1 : 1 ≤ q := Int.not_lt.mp hq
      by_cases hex : c.items.any (fun it => it.product == pid)
      · simp only [applyCartOp, addOrUpdateItem, if_neg hq, if_pos hex]
        simp only [cartValid, List.all_map, List.all_eq_true] at h ⊢
        intro it hit
        by_cases hp : (it.product == pid) = true
        · simp [Function.comp, hp, cartItemValid, hq1]
        · simpa [Function.comp, hp] using h it hit
      · simp only [applyCartOp, addOrUpdateItem, if_neg hq, if_neg hex]
        simp only [cartValid, List.all_eq_true] at h ⊢
        intro it hit
        rcases List.mem_append.mp hit with hit1 | hit2
        · exact h it hit1
        · rw [List.mem_singleton.mp hit2]
          simp [cartItemValid, hq1]
  | remove pid =>
    simp only [applyCartOp, removeItem, cartValid, List.all_eq_true] at h ⊢
    intro it hit
    exact h it (List.mem_of_mem_filter hit)

/-- Any run of cart operations from a valid cart ends in a valid cart. -/
theorem cartValid_runCartOps (ops : List CartOp) (c : Cart) :
    cartValid c = true → cartValid (runCartOps c ops) = true := by
  induction ops generalizing c with
  | nil => exact id
  | cons op rest ih =>
    intro h
    exact ih (applyCartOp c op) (cartValid_applyCartOp c op h)

/-- C10: every cart reachable from the empty cart through the API
operations has all line item quantities at least 1, and an add carrying a
zero or negative quantity is rejected outright by the schema minimum, so
no operation ever stores a line item with quantity below 1. -/
theorem c10_cart_quantities_always_at_least_one (u : Nat) (ops : List CartOp) :
    cartValid (runCartOps (emptyCart u) ops) = true ∧
    (∀ (c : Cart) (pid : Nat) (q : Int), q < 1 →
      addOrUpdateItem c pid q = Except.error (400, "Quantity must be at least 1")) := by
  refine ⟨cartValid_runCartOps ops (emptyCart u) rfl, ?_⟩
  intro c pid q hq
  simp [addOrUpdateItem, hq]

/-- C10 witness: a concrete run mixing accepted adds, a rejected add, and
a removal stays valid, and a zero-quantity add on the resulting cart is
rejected. -/
theorem c10_cart_quantities_always_at_least_one_witness :
    cartValid (runCartOps (emptyCart 9) [.add 1 2, .add 1 (-3), .add 2 1, .remove 1]) = true ∧
    addOrUpdateItem (emptyCart 9) 2 0 = Except.error (400, "Quantity must be at least 1") :=
  ⟨(c10_cart_quantities_always_at_least_one 9 [.add 1 2, .add 1 (-3), .add 2 1, .remove 1]).1,
   (c10_cart_quantities_always_at_least_one 9 []).2 (emptyCart 9) 2 0 (by decide)⟩
